import Mathlib

/-!
Verification development for the GitLab Copilot reviewer.

The definitions below are a shallow embedding of the TypeScript sources:
`src/webhook.ts` (`shouldTriggerReview`), `src/reviewer.ts`
(`parseReviewResponse`), `src/gitlab-client.ts` (`postReview`) and
`src/index.ts` (the Lambda `handler`'s orchestration block).  JavaScript
strings are modelled by Lean `String`; the JavaScript string primitives the
code uses (`trim`, `startsWith`, the two fence-stripping regex replaces) are
modelled explicitly below so that their semantics match ECMAScript rather
than Lean's own library functions.  `JSON.parse` is an engine builtin, so it
is modelled as a parameter `jp : String → Option Js`: `none` models a thrown
`SyntaxError`, `some v` a successfully decoded value.
-/

/- ────────────────────────────────────────────────────────────────────────
   JavaScript string primitives
   ──────────────────────────────────────────────────────────────────────── -/

/-- The backtick character (written via its code point, U+0060). -/
def btick : Char := Char.ofNat 96

/-- ECMAScript whitespace (the set trimmed by `String.prototype.trim`):
whitespace code points plus line terminators. -/
def isJsSpace (c : Char) : Bool :=
  [0x9, 0xa, 0xb, 0xc, 0xd, 0x20, 0xa0, 0x1680,
   0x2000, 0x2001, 0x2002, 0x2003, 0x2004, 0x2005, 0x2006, 0x2007,
   0x2008, 0x2009, 0x200a, 0x2028, 0x2029, 0x202f, 0x205f, 0x3000,
   0xfeff].contains c.toNat

/-- Drop trailing JS whitespace from a character list. -/
def trimEnd (l : List Char) : List Char :=
  (l.reverse.dropWhile isJsSpace).reverse

/-- Drop leading and trailing JS whitespace. -/
def jsTrimData (l : List Char) : List Char :=
  trimEnd (l.dropWhile isJsSpace)

/-- Model of `String.prototype.trim`. -/
def jsTrim (s : String) : String := ⟨jsTrimData s.data⟩

/-- `chStarts p l` : the list `l` starts with the list `p`. -/
def chStarts : List Char → List Char → Bool
  | [], _ => true
  | _ :: _, [] => false
  | p :: ps, c :: cs => p == c && chStarts ps cs

/-- Model of `s.startsWith(p)`. -/
def strStarts (p s : String) : Bool := chStarts p.data s.data

/-- Model of `s.endsWith(p)` (used to express the `/\n?```$/` replace). -/
def strEnds (p s : String) : Bool := chStarts p.data.reverse s.data.reverse

/-- Drop the first `n` characters of a string. -/
def strDrop (n : Nat) (s : String) : String := ⟨s.data.drop n⟩

/-- Drop the last `n` characters of a string. -/
def strDropEnd (n : Nat) (s : String) : String :=
  ⟨s.data.take (s.data.length - n)⟩

/- ────────────────────────────────────────────────────────────────────────
   JavaScript values produced by JSON.parse, and member access
   ──────────────────────────────────────────────────────────────────────── -/

/-- JavaScript values as they appear after `JSON.parse` (plus `undefined`, the
result of reading an absent property).  Numbers are modelled by `Int`: the
only numbers the reviewed code ever inspects or forwards are line numbers,
on which no arithmetic is performed. -/
inductive Js where
  | undefined : Js
  | null : Js
  | bool : Bool → Js
  | num : Int → Js
  | str : String → Js
  | arr : List Js → Js
  | obj : List (String × Js) → Js

/-- Model of the JS `typeof` operator. -/
def Js.typeof : Js → String
  | .undefined => "undefined"
  | .null => "object"
  | .bool _ => "boolean"
  | .num _ => "number"
  | .str _ => "string"
  | .arr _ => "object"
  | .obj _ => "object"

/-- Model of the JS member access `v.k`.  Reading a property of `null` or
`undefined` throws a `TypeError` (`none`); reading an absent property of an
object, or a property of any other primitive or of an array, yields
`undefined`. -/
def Js.access : Js → String → Option Js
  | .undefined, _ => none
  | .null, _ => none
  | .obj fs, k => some ((fs.lookup k).getD .undefined)
  | _, _ => some .undefined

/-- Member access is a thrown `TypeError` exactly on nullish receivers. -/
def jsNotNullish : Js → Bool
  | .undefined => false
  | .null => false
  | _ => true

/-- The value of `v.k` when the receiver is not nullish. -/
def Js.accessD (v : Js) (k : String) : Js := (v.access k).getD .undefined

/- ────────────────────────────────────────────────────────────────────────
   Data model (src/types.ts)
   ──────────────────────────────────────────────────────────────────────── -/

/-- `GitLabUser` (fields not read by the modelled logic are omitted). -/
structure GitLabUser where
  id : Nat
  username : String
  deriving DecidableEq

/-- The slice of `Config` read by `shouldTriggerReview`. -/
structure Config where
  gitlabBotUsername : String
  deriving DecidableEq

/-- The `changes.reviewer_ids` record.  The code reads the two lists with
`?? []`, so they are modelled as optional. -/
structure ReviewerIdsChange where
  previous : Option (List Nat)
  current : Option (List Nat)
  deriving DecidableEq

/-- `MergeRequestChanges` (the index-signature part is never read). -/
structure MergeRequestChanges where
  reviewer_ids : Option ReviewerIdsChange
  deriving DecidableEq

/-- The slice of `object_attributes` read by `shouldTriggerReview`. -/
structure MergeRequestAttributes where
  action : String
  draft : Bool
  work_in_progress : Bool
  deriving DecidableEq

/-- The slice of the webhook payload read by `shouldTriggerReview`.
`reviewers` and `changes` are optional because the code guards them with
`?.`. -/
structure MergeRequestWebhookPayload where
  object_kind : String
  object_attributes : MergeRequestAttributes
  reviewers : Option (List GitLabUser)
  changes : Option MergeRequestChanges
  deriving DecidableEq

/-- `DiffFile` (src/types.ts). -/
structure DiffFile where
  old_path : String
  new_path : String
  a_mode : String
  b_mode : String
  diff : String
  new_file : Bool
  renamed_file : Bool
  deleted_file : Bool
  too_large : Bool
  collapsed : Bool
  deriving DecidableEq

/-- `MergeRequestDiffVersionDetail` (metadata fields not read by the
modelled logic — timestamps, state, patch id — are omitted). -/
structure MergeRequestDiffVersionDetail where
  id : Nat
  head_commit_sha : String
  base_commit_sha : String
  start_commit_sha : String
  diffs : List DiffFile
  deriving DecidableEq

/-- `ReviewComment`.  `severity` is a string in the model: the parser
normalizes it to one of `"info"`, `"warning"`, `"critical"`. -/
structure ReviewComment where
  file : String
  line : Int
  body : String
  severity : String
  deriving DecidableEq

/-- `ReviewResult`. -/
structure ReviewResult where
  summary : String
  comments : List ReviewComment
  deriving DecidableEq

/-- `DiffPosition` (src/types.ts).  `postReview` always anchors on the new
line and never sets `old_line`. -/
structure DiffPosition where
  position_type : String
  base_sha : String
  head_sha : String
  start_sha : String
  old_path : String
  new_path : String
  new_line : Option Int
  old_line : Option Int
  deriving DecidableEq

/- ────────────────────────────────────────────────────────────────────────
   Trigger gate (src/webhook.ts, shouldTriggerReview)
   ──────────────────────────────────────────────────────────────────────── -/

/-- Shallow embedding of `shouldTriggerReview(payload, config)`. -/
def shouldTriggerReview (payload : MergeRequestWebhookPayload)
    (config : Config) : Bool :=
  if payload.object_kind != "merge_request" then false
  else if payload.object_attributes.action != "update" then false
  else if payload.object_attributes.draft
       || payload.object_attributes.work_in_progress then false
  else
    match (payload.reviewers.getD []).find?
        (fun r => r.username == config.gitlabBotUsername) with
    | none => false
    | some botUser =>
      match payload.changes.bind (fun ch => ch.reviewer_ids) with
      | some reviewerChanges =>
        let previousIds := reviewerChanges.previous.getD []
        let currentIds := reviewerChanges.current.getD []
        let wasAlreadyReviewer := previousIds.contains botUser.id
        let isNowReviewer := currentIds.contains botUser.id
        if wasAlreadyReviewer || !isNowReviewer then false
        else true
      | none => true

/- ────────────────────────────────────────────────────────────────────────
   Response parser (src/reviewer.ts, parseReviewResponse)
   ──────────────────────────────────────────────────────────────────────── -/

/-- Model of `cleaned.replace(/^```(?:json)?\n?/, "")`; only applied when
`cleaned` starts with three backticks, so the regex always matches at least
the backticks. -/
def stripFenceOpen (s : String) : String :=
  let s1 := strDrop 3 s
  let s2 := if strStarts "json" s1 then strDrop 4 s1 else s1
  if strStarts "\n" s2 then strDrop 1 s2 else s2

/-- Model of `.replace(/\n?```$/, "")`. -/
def stripFenceClose (s : String) : String :=
  if strEnds "\n```" s then strDropEnd 4 s
  else if strEnds "```" s then strDropEnd 3 s
  else s

/-- The fence-stripping front half of `parseReviewResponse`: trim, then
strip a single enclosing fenced block when the text starts with one. -/
def cleanContent (content : String) : String :=
  let cleaned := jsTrim content
  if strStarts "```" cleaned then stripFenceClose (stripFenceOpen cleaned)
  else cleaned

/-- The filter predicate
`typeof c.file === "string" && typeof c.line === "number" &&
 typeof c.body === "string"`, with `&&` short-circuiting.  `none` models a
thrown `TypeError` (nullish element). -/
def keepCandidate (c : Js) : Option Bool :=
  match c.access "file" with
  | none => none
  | some f =>
    if f.typeof == "string" then
      match c.access "line" with
      | none => none
      | some l =>
        if l.typeof == "number" then
          match c.access "body" with
          | none => none
          | some b => some (b.typeof == "string")
        else some false
    else some false

/-- Severity normalization:
`["info","warning","critical"].includes(c.severity) ? c.severity : "info"`. -/
def normSeverity : Js → String
  | .str "info" => "info"
  | .str "warning" => "warning"
  | .str "critical" => "critical"
  | _ => "info"

/-- The `.map` body building the retained comment object.  Every element
reaching the map passed the filter, so the three typed fields are present;
the catch-all `none` keeps the model total. -/
def jsToComment (c : Js) : Option ReviewComment :=
  match c.access "file", c.access "line", c.access "body",
        c.access "severity" with
  | some (.str f), some (.num l), some (.str b), some sv =>
    some ⟨f, l, b, normSeverity sv⟩
  | _, _, _, _ => none

/-- `Array.prototype.filter` with the (possibly throwing) predicate
`keepCandidate`, evaluated left to right; a throw aborts the whole parse. -/
def jsFilterComments : List Js → Option (List Js)
  | [] => some []
  | c :: cs => do
    let b ← keepCandidate c
    let rest ← jsFilterComments cs
    pure (if b then c :: rest else rest)

/-- `Array.prototype.map` with a possibly throwing body. -/
def mapOrThrow (f : α → Option β) : List α → Option (List β)
  | [] => some []
  | a :: l => do
    let b ← f a
    let bs ← mapOrThrow f l
    pure (b :: bs)

/-- The elements of `parsed.comments` after the `Array.isArray` guard:
a non-array is replaced by the empty array. -/
def jsArray : Js → List Js
  | .arr xs => xs
  | _ => []

/-- The `try` block of `parseReviewResponse`: decode, check the summary,
default a non-array `comments`, filter, map.  `none` models any throw,
which the caller turns into the raw-text fallback. -/
def parseAttempt (jp : String → Option Js) (cleaned : String) :
    Option ReviewResult :=
  match jp cleaned with
  | none => none
  | some parsed =>
    match parsed.access "summary" with
    | none => none
    | some sv =>
      match sv with
      | .str summary =>
        match parsed.access "comments" with
        | none => none
        | some cv =>
          match jsFilterComments (jsArray cv) with
          | none => none
          | some kept =>
            match mapOrThrow jsToComment kept with
            | none => none
            | some comments => some ⟨summary, comments⟩
      | _ => none

/-- Shallow embedding of `parseReviewResponse(content)`, parameterized by
the engine's `JSON.parse` (`jp`).  On any throw inside the `try` block the
code returns `{ summary: content, comments: [] }` — note: the original
`content`, not the fence-stripped `cleaned`. -/
def parseReviewResponse (jp : String → Option Js) (content : String) :
    ReviewResult :=
  match parseAttempt jp (cleanContent content) with
  | some r => r
  | none => { summary := content, comments := [] }

/-- Spec-level characterization of which candidate comments survive:
string file, numeric line, string body, severity normalized.  Used to state
the parser claims; the bridge to the executable pipeline above is proved
below. -/
def candidateToComment (c : Js) : Option ReviewComment :=
  match c.access "file", c.access "line", c.access "body" with
  | some (.str f), some (.num l), some (.str b) =>
    some ⟨f, l, b, normSeverity ((c.access "severity").getD .undefined)⟩
  | _, _, _ => none

/-- `v` decoded but carries no string `summary` (including the case where
reading `summary` throws on a nullish `v`). -/
def hasStringSummary (v : Js) : Bool :=
  match v.access "summary" with
  | some (.str _) => true
  | _ => false

/-- A JSON.parse model that throws on every input (used at inputs where the
real `JSON.parse` throws, such as plain prose). -/
def failDecode : String → Option Js := fun _ => none

/-- A JSON.parse model returning a fixed value (used at inputs where the
real `JSON.parse` succeeds with exactly that value). -/
def constDecode (v : Js) : String → Option Js := fun _ => some v

/-- Wrap a text in a fenced code block carrying a language tag. -/
def wrapFence (tag text : String) : String :=
  "```" ++ tag ++ "\n" ++ text ++ "\n```"

/- ────────────────────────────────────────────────────────────────────────
   Comment poster (src/gitlab-client.ts, postReview)
   ──────────────────────────────────────────────────────────────────────── -/

/-- Outcome oracle for the GitLab REST calls made while posting one review.
Each call site gets its own independent outcome, indexed by the position of
the comment being processed: `inlineOk i` is the fate of the inline
discussion post for comment `i`, `noteOk i` the fate of the general note
posted when comment `i`'s file is not in the diff, `fallbackOk i` the fate
of the fallback note posted after a failed attempt, and `summaryOk` the
fate of the final summary note. -/
structure PostEnv where
  inlineOk : Nat → Bool
  noteOk : Nat → Bool
  fallbackOk : Nat → Bool
  summaryOk : Bool

/-- One attempted REST call while posting a review, with its body, and
whether it succeeded. -/
inductive PostEvent where
  | noteAttempt : String → Bool → PostEvent
  | inlineAttempt : String → DiffPosition → Bool → PostEvent
  deriving DecidableEq

/-- `{ posted, failed }`. -/
structure PostingOutcome where
  posted : Nat
  failed : Nat
  deriving DecidableEq

/-- The trace of a `postReview` call plus its result; `result = none`
models `postReview` itself throwing (which happens exactly when the final
summary note post fails, the only call not wrapped in a `try`). -/
structure PostReviewRun where
  events : List PostEvent
  result : Option PostingOutcome
  deriving DecidableEq

/-- `diffVersion.diffs.find(d => d.new_path === comment.file ||
d.old_path === comment.file)`. -/
def findDiffFile (dv : MergeRequestDiffVersionDetail) (file : String) :
    Option DiffFile :=
  dv.diffs.find? (fun d => d.new_path == file || d.old_path == file)

/-- The general-note body `` `**${comment.file}:${comment.line}** – ${comment.body}` ``. -/
def generalNoteBody (c : ReviewComment) : String :=
  "**" ++ c.file ++ ":" ++ toString c.line ++ "** – " ++ c.body

/-- The severity icon choice. -/
def severityIcon (c : ReviewComment) : String :=
  if c.severity == "critical" then "🔴"
  else if c.severity == "warning" then "🟡"
  else "ℹ️"

/-- The inline-discussion body
`` `${severityIcon} **${comment.severity.toUpperCase()}**: ${comment.body}` ``. -/
def inlineNoteBody (c : ReviewComment) : String :=
  severityIcon c ++ " **" ++ c.severity.toUpper ++ "**: " ++ c.body

/-- The `DiffPosition` built for an inline comment. -/
def toPosition (dv : MergeRequestDiffVersionDetail) (d : DiffFile)
    (c : ReviewComment) : DiffPosition :=
  { position_type := "text"
    base_sha := dv.base_commit_sha
    head_sha := dv.head_commit_sha
    start_sha := dv.start_commit_sha
    old_path := d.old_path
    new_path := d.new_path
    new_line := some c.line
    old_line := none }

/-- One iteration of the `for (const comment of comments)` loop: the
attempted calls, and the net increments to `posted` and `failed` (the code
increments `failed` and then decrements it again when the fallback
recovers; only the net effect per comment is observable at the end). -/
def processComment (env : PostEnv) (i : Nat)
    (dv : MergeRequestDiffVersionDetail) (c : ReviewComment) :
    List PostEvent × Nat × Nat :=
  match findDiffFile dv c.file with
  | none =>
    if env.noteOk i then
      ([.noteAttempt (generalNoteBody c) true], 1, 0)
    else if env.fallbackOk i then
      ([.noteAttempt (generalNoteBody c) false,
        .noteAttempt (generalNoteBody c) true], 1, 0)
    else
      ([.noteAttempt (generalNoteBody c) false,
        .noteAttempt (generalNoteBody c) false], 0, 1)
  | some d =>
    if env.inlineOk i then
      ([.inlineAttempt (inlineNoteBody c) (toPosition dv d c) true], 1, 0)
    else if env.fallbackOk i then
      ([.inlineAttempt (inlineNoteBody c) (toPosition dv d c) false,
        .noteAttempt (generalNoteBody c) true], 1, 0)
    else
      ([.inlineAttempt (inlineNoteBody c) (toPosition dv d c) false,
        .noteAttempt (generalNoteBody c) false], 0, 1)

/-- The whole comment loop, starting at comment index `i`. -/
def postComments (env : PostEnv) (dv : MergeRequestDiffVersionDetail) :
    Nat → List ReviewComment → List PostEvent × Nat × Nat
  | _, [] => ([], 0, 0)
  | i, c :: rest =>
    let r := processComment env i dv c
    let rs := postComments env dv (i + 1) rest
    (r.1 ++ rs.1, r.2.1 + rs.2.1, r.2.2 + rs.2.2)

/-- Shallow embedding of
`postReview(projectId, mrIid, summary, comments, diffVersion)`: the comment
loop followed by the unconditional summary note. -/
def postReview (env : PostEnv) (summary : String)
    (comments : List ReviewComment) (dv : MergeRequestDiffVersionDetail) :
    PostReviewRun :=
  let r := postComments env dv 0 comments
  { events := r.1 ++ [.noteAttempt summary env.summaryOk]
    result := if env.summaryOk then some ⟨r.2.1, r.2.2⟩ else none }

/- ────────────────────────────────────────────────────────────────────────
   Orchestrator (src/index.ts, handler: the post-gate try/catch/finally)
   ──────────────────────────────────────────────────────────────────────── -/

/-- Outcome oracles for the effectful collaborators used by the handler's
orchestration block.  `Except.error e` models a throw with message `e`.
`emptyNote` is the fate of the "no file changes" note (`none` = posted
fine, `some e` = the GitLab call threw `e`); `failNoteOk` the fate of the
best-effort failure notification; `cleanupOk` the fate of the clone
cleanup. -/
structure OrchEnv where
  getLatestDiffs : Except String MergeRequestDiffVersionDetail
  emptyNote : Option String
  cloneRepo : Except String String
  review : Except String ReviewResult
  postReviewResult : Except String PostingOutcome
  failNoteOk : Bool
  cleanupOk : Bool

/-- Observable steps of one orchestration run, in order. -/
inductive OrchEvent where
  | diffFetch : Bool → OrchEvent
  | note : String → Bool → OrchEvent
  | cloneAcquire : Bool → OrchEvent
  | assistant : Bool → OrchEvent
  | reviewPost : Bool → OrchEvent
  | cleanup : Bool → OrchEvent
  deriving DecidableEq

/-- The HTTP result of the handler plus the trace of steps; `errorMsg` is
the `error` field of the 500 response body (`none` on success). -/
structure OrchResult where
  events : List OrchEvent
  statusCode : Nat
  errorMsg : Option String
  deriving DecidableEq

/-- The "no file changes" informational note body. -/
def emptyDiffsNoteBody : String :=
  "🤖 **Copilot Review**: No file changes detected in this MR."

/-- The best-effort failure notification body, which embeds the error
message. -/
def failNoteBody (e : String) : String :=
  "🤖 **Copilot Review**: Review failed with an error. " ++
  "Please check the Lambda logs.\n\n```\n" ++ e ++ "\n```"

/-- Shallow embedding of the handler's orchestration block (index.ts lines
81–185): fetch diffs; short-circuit on an empty diff; clone; review; post;
on any throw, post one best-effort failure note (its own failure swallowed)
and return 500 with the primary error; always clean up an acquired clone
(cleanup failure logged only).  The clone collaborator removes its own
partial state on failure, so no handler-level cleanup happens when the
clone itself failed. -/
def handlerCore (env : OrchEnv) : OrchResult :=
  match env.getLatestDiffs with
  | .error e =>
    { events := [.diffFetch false, .note (failNoteBody e) env.failNoteOk]
      statusCode := 500
      errorMsg := some e }
  | .ok dv =>
    if dv.diffs.length == 0 then
      match env.emptyNote with
      | none =>
        { events := [.diffFetch true, .note emptyDiffsNoteBody true]
          statusCode := 200
          errorMsg := none }
      | some e =>
        { events := [.diffFetch true, .note emptyDiffsNoteBody false,
                     .note (failNoteBody e) env.failNoteOk]
          statusCode := 500
          errorMsg := some e }
    else
      match env.cloneRepo with
      | .error e =>
        { events := [.diffFetch true, .cloneAcquire false,
                     .note (failNoteBody e) env.failNoteOk]
          statusCode := 500
          errorMsg := some e }
      | .ok _dir =>
        match env.review with
        | .error e =>
          { events := [.diffFetch true, .cloneAcquire true,
                       .assistant false, .note (failNoteBody e) env.failNoteOk,
                       .cleanup env.cleanupOk]
            statusCode := 500
            errorMsg := some e }
        | .ok _rv =>
          match env.postReviewResult with
          | .error e =>
            { events := [.diffFetch true, .cloneAcquire true,
                         .assistant true, .reviewPost false,
                         .note (failNoteBody e) env.failNoteOk,
                         .cleanup env.cleanupOk]
              statusCode := 500
              errorMsg := some e }
          | .ok _out =>
            { events := [.diffFetch true, .cloneAcquire true,
                         .assistant true, .reviewPost true,
                         .cleanup env.cleanupOk]
              statusCode := 200
              errorMsg := none }

/-- Recognize the failure notification for error `e` in a trace. -/
def OrchEvent.isFailNoteFor (e : String) : OrchEvent → Bool
  | .note b _ => b == failNoteBody e
  | _ => false

/-- Recognize an assistant invocation in a trace. -/
def OrchEvent.isAssistant : OrchEvent → Bool
  | .assistant _ => true
  | _ => false

/-- Recognize any general-note post attempt in a trace. -/
def OrchEvent.isNote : OrchEvent → Bool
  | .note _ _ => true
  | _ => false

/- ────────────────────────────────────────────────────────────────────────
   Concrete fixtures used by witnesses and counterexamples
   ──────────────────────────────────────────────────────────────────────── -/

/-- A diff file for `a.ts`. -/
def dfW : DiffFile :=
  { old_path := "a.ts", new_path := "a.ts", a_mode := "100644"
    b_mode := "100644", diff := "@@ -1 +1 @@\n-x\n+y\n"
    new_file := false, renamed_file := false, deleted_file := false
    too_large := false, collapsed := false }

/-- A diff version containing the single file `a.ts`. -/
def dvW : MergeRequestDiffVersionDetail :=
  { id := 1, head_commit_sha := "h", base_commit_sha := "b"
    start_commit_sha := "s", diffs := [dfW] }

/-- A diff version with zero changed files. -/
def dvEmpty : MergeRequestDiffVersionDetail :=
  { id := 2, head_commit_sha := "h", base_commit_sha := "b"
    start_commit_sha := "s", diffs := [] }

/-- A comment whose inline post will succeed. -/
def okC : ReviewComment := ⟨"a.ts", 3, "looks fine", "info"⟩

/-- A comment whose inline post will fail. -/
def failC : ReviewComment := ⟨"a.ts", 5, "possible bug", "warning"⟩

/-- A comment on a file that is not part of the diff. -/
def lostC : ReviewComment := ⟨"zz.ts", 2, "stray", "info"⟩

/-- Posting oracle for the `[ok1, failing1]` scenario: inline post 0
succeeds, inline post 1 fails, every fallback succeeds, the summary posts
fine. -/
def envC2 : PostEnv :=
  { inlineOk := fun i => i == 0, noteOk := fun _ => true
    fallbackOk := fun _ => true, summaryOk := true }

/-- Posting oracle where every call succeeds. -/
def envAllOk : PostEnv :=
  { inlineOk := fun _ => true, noteOk := fun _ => true
    fallbackOk := fun _ => true, summaryOk := true }

/-- Trigger-gate fixtures: the bot account. -/
def botW : GitLabUser := ⟨9, "copilot"⟩

/-- Trigger-gate fixtures: the configured bot username. -/
def cfgW : Config := ⟨"copilot"⟩

/-- A payload in which the bot was freshly added as reviewer. -/
def payloadW : MergeRequestWebhookPayload :=
  { object_kind := "merge_request"
    object_attributes := { action := "update", draft := false
                           work_in_progress := false }
    reviewers := some [⟨7, "alice"⟩, botW]
    changes := some ⟨some ⟨some [7], some [7, 9]⟩⟩ }

/-- Orchestrator oracle where the diff fetch throws and the failure
notification itself also fails (its failure must be swallowed). -/
def envC4 : OrchEnv :=
  { getLatestDiffs := .error "boom", emptyNote := none
    cloneRepo := .ok "/tmp/clone", review := .ok ⟨"", []⟩
    postReviewResult := .ok ⟨0, 0⟩, failNoteOk := false, cleanupOk := true }

/-- Orchestrator oracle for an empty diff with a healthy note endpoint. -/
def envC5 : OrchEnv :=
  { getLatestDiffs := .ok dvEmpty, emptyNote := none
    cloneRepo := .ok "/tmp/clone", review := .ok ⟨"", []⟩
    postReviewResult := .ok ⟨0, 0⟩, failNoteOk := true, cleanupOk := true }

/-- The raw text of the C8 counterexample: a well-formed candidate followed
by a JSON `null` in the comments array. -/
def s8bad : String :=
  "\x7b\"summary\":\"x\",\"comments\":[\x7b\"file\":\"a.ts\",\"line\":1,\"body\":\"b\"\x7d,null]\x7d"

/-- The well-formed candidate of `s8bad`. -/
def c8good : Js :=
  .obj [("file", .str "a.ts"), ("line", .num 1), ("body", .str "b")]

/-- The decoded value of `s8bad`. -/
def c8badValue : Js :=
  .obj [("summary", .str "x"), ("comments", .arr [c8good, .null])]

/-- The raw text of the spec's "not-a-number" example. -/
def s8w : String :=
  "\x7b\"summary\":\"x\",\"comments\":[\x7b\"file\":\"a.ts\",\"line\":\"not-a-number\",\"body\":\"b\",\"severity\":\"critical\"\x7d]\x7d"

/-- The malformed candidate of `s8w` (its `line` is a string). -/
def c8wCand : Js :=
  .obj [("file", .str "a.ts"), ("line", .str "not-a-number"),
        ("body", .str "b"), ("severity", .str "critical")]

/-- The decoded value of `s8w`. -/
def c8wValue : Js :=
  .obj [("summary", .str "x"), ("comments", .arr [c8wCand])]

/-- A well-formed response text. -/
def t9 : String := "\x7b\"summary\":\"ok\",\"comments\":[]\x7d"

/-- The decoded value of `t9`. -/
def v9 : Js := .obj [("summary", .str "ok"), ("comments", .arr [])]

/- ────────────────────────────────────────────────────────────────────────
   Helper lemmas about the comment poster
   ──────────────────────────────────────────────────────────────────────── -/

/-- Each comment's processing nets exactly one counter increment. -/
theorem processComment_sum (env : PostEnv) (i : Nat)
    (dv : MergeRequestDiffVersionDetail) (c : ReviewComment) :
    (processComment env i dv c).2.1 + (processComment env i dv c).2.2 = 1 := by
  unfold processComment
  cases findDiffFile dv c.file <;> dsimp only <;> split_ifs <;> rfl

/-- The loop counters always sum to the number of comments. -/
theorem postComments_sum (env : PostEnv) (dv : MergeRequestDiffVersionDetail)
    (cs : List ReviewComment) : ∀ i : Nat,
    (postComments env dv i cs).2.1 + (postComments env dv i cs).2.2
      = cs.length := by
  induction cs with
  | nil => intro i; simp [postComments]
  | cons c rest ih =>
    intro i
    have h1 := processComment_sum env i dv c
    have h2 := ih (i + 1)
    simp only [postComments, List.length_cons]
    omega

/-- The loop distributes over list append, with the comment index shifted
by the length of the first part. -/
theorem postComments_append (env : PostEnv)
    (dv : MergeRequestDiffVersionDetail) (xs : List ReviewComment) :
    ∀ (i : Nat) (ys : List ReviewComment),
    postComments env dv i (xs ++ ys) =
      ((postComments env dv i xs).1
         ++ (postComments env dv (i + xs.length) ys).1,
       (postComments env dv i xs).2.1
         + (postComments env dv (i + xs.length) ys).2.1,
       (postComments env dv i xs).2.2
         + (postComments env dv (i + xs.length) ys).2.2) := by
  induction xs with
  | nil => intro i ys; simp [postComments]
  | cons x xs ih =>
    intro i ys
    have hidx : i + 1 + xs.length = i + (xs.length + 1) := by omega
    have ih' := ih (i + 1) ys
    rw [List.cons_append]
    simp only [postComments, List.length_cons, Prod.mk.injEq]
    rw [ih', hidx]
    refine ⟨by simp [List.append_assoc], ?_, ?_⟩ <;> dsimp only <;> omega

/- ────────────────────────────────────────────────────────────────────────
   Claim theorems: trigger gate and comment poster
   ──────────────────────────────────────────────────────────────────────── -/

/-- C1: for a merge-request `update` event that is not a draft/WIP and
whose reviewer list contains the bot, the gate triggers exactly when either
the payload carries a `reviewer_ids` change record whose `current` list
contains the bot's id while its `previous` list does not, or the payload
carries no such record at all. -/
theorem shouldTrigger_fresh_addition (p : MergeRequestWebhookPayload)
    (cfg : Config) (bot : GitLabUser)
    (hkind : p.object_kind = "merge_request")
    (hact : p.object_attributes.action = "update")
    (hdraft : p.object_attributes.draft = false)
    (hwip : p.object_attributes.work_in_progress = false)
    (hbot : (p.reviewers.getD []).find?
        (fun r => r.username == cfg.gitlabBotUsername) = some bot) :
    shouldTriggerReview p cfg =
      match p.changes.bind (fun ch => ch.reviewer_ids) with
      | some rc => (rc.current.getD []).contains bot.id
          && !((rc.previous.getD []).contains bot.id)
      | none => true := by
  cases hch : p.changes.bind (fun ch => ch.reviewer_ids) with
  | none => simp [shouldTriggerReview, hkind, hact, hdraft, hwip, hbot, hch]
  | some rc =>
    simp only [shouldTriggerReview, hkind, hact, hdraft, hwip, hbot, hch]
    cases hprev : (rc.previous.getD []).contains bot.id <;>
      cases hcur : (rc.current.getD []).contains bot.id <;> simp [hprev, hcur]

/-- Witness for C1: bot id 9, previous reviewer ids `[7]`, current
`[7, 9]` — the gate fires. -/
theorem shouldTrigger_fresh_addition_witness :
    shouldTriggerReview payloadW cfgW = true := by
  have h := shouldTrigger_fresh_addition payloadW cfgW botW rfl rfl rfl rfl
    (by decide)
  exact h.trans (by decide)

/-- C2: `postReview` processes every comment (the trace decomposes into the
comments before the failing one, the failing one, the comments after it,
and the trailing summary); a comment whose inline post fails gets exactly
one fallback general-note attempt, contributing `1` to `posted` when the
fallback succeeds and `1` to `failed` when it also fails. -/
theorem postReview_inline_failure_fallback (env : PostEnv) (s : String)
    (dv : MergeRequestDiffVersionDetail) (pre : List ReviewComment)
    (c : ReviewComment) (post : List ReviewComment) (d : DiffFile)
    (hfind : findDiffFile dv c.file = some d)
    (hinl : env.inlineOk pre.length = false) :
    (postReview env s (pre ++ c :: post) dv).events
      = (postComments env dv 0 pre).1
        ++ [PostEvent.inlineAttempt (inlineNoteBody c) (toPosition dv d c) false,
            PostEvent.noteAttempt (generalNoteBody c) (env.fallbackOk pre.length)]
        ++ (postComments env dv (pre.length + 1) post).1
        ++ [PostEvent.noteAttempt s env.summaryOk]
    ∧ (postReview env s (pre ++ c :: post) dv).result
      = (if env.summaryOk then
          some ⟨(postComments env dv 0 pre).2.1
                + ((if env.fallbackOk pre.length then 1 else 0)
                   + (postComments env dv (pre.length + 1) post).2.1),
                (postComments env dv 0 pre).2.2
                + ((if env.fallbackOk pre.length then 0 else 1)
                   + (postComments env dv (pre.length + 1) post).2.2)⟩
         else none) := by
  have hx := postComments_append env dv pre 0 (c :: post)
  simp only [Nat.zero_add] at hx
  unfold postReview
  rw [hx]
  simp only [postComments, processComment, hfind, hinl]
  cases hfb : env.fallbackOk pre.length <;>
    simp [hfb, List.append_assoc]

/-- Witness for C2: comments `[okC, failC]` against a diff containing
their file, where `failC`'s inline post throws but its fallback succeeds:
the outcome is `{posted := 2, failed := 0}`. -/
theorem postReview_inline_failure_fallback_witness :
    (postReview envC2 "summary" [okC, failC] dvW).result = some ⟨2, 0⟩ := by
  have h := postReview_inline_failure_fallback envC2 "summary" dvW [okC]
    failC [] dfW (by decide) (by decide)
  exact h.2.trans (by decide)

/-- C6: `postReview` always appends exactly one summary-note attempt after
all comment events, whatever the comment outcomes were; with zero comments
(and a healthy notes endpoint) it posts exactly the one summary note and
returns `{posted := 0, failed := 0}`. -/
theorem postReview_summary_always (env : PostEnv) (s : String)
    (dv : MergeRequestDiffVersionDetail) (cs : List ReviewComment) :
    (postReview env s cs dv).events
      = (postComments env dv 0 cs).1 ++ [PostEvent.noteAttempt s env.summaryOk]
    ∧ (cs = [] → env.summaryOk = true →
        (postReview env s [] dv).events = [PostEvent.noteAttempt s true]
        ∧ (postReview env s [] dv).result = some ⟨0, 0⟩) := by
  refine ⟨rfl, fun _ hsum => ?_⟩
  constructor <;> simp [postReview, postComments, hsum]

/-- Witness for C6 at zero comments. -/
theorem postReview_summary_always_witness :
    (postReview envAllOk "summary" [] dvW).events
      = [PostEvent.noteAttempt "summary" true]
    ∧ (postReview envAllOk "summary" [] dvW).result = some ⟨0, 0⟩ :=
  (postReview_summary_always envAllOk "summary" dvW []).2 rfl rfl

/-- C7: a comment whose file matches no diff file is posted as a general
note with the `file:line` prefix, counts as posted (not failed), and the
remaining comments are still processed. -/
theorem postReview_unmatched_file_general_note (env : PostEnv) (s : String)
    (dv : MergeRequestDiffVersionDetail) (pre : List ReviewComment)
    (c : ReviewComment) (post : List ReviewComment)
    (hfind : findDiffFile dv c.file = none)
    (hnote : env.noteOk pre.length = true) :
    (postReview env s (pre ++ c :: post) dv).events
      = (postComments env dv 0 pre).1
        ++ [PostEvent.noteAttempt (generalNoteBody c) true]
        ++ (postComments env dv (pre.length + 1) post).1
        ++ [PostEvent.noteAttempt s env.summaryOk]
    ∧ (postReview env s (pre ++ c :: post) dv).result
      = (if env.summaryOk then
          some ⟨(postComments env dv 0 pre).2.1
                + (1 + (postComments env dv (pre.length + 1) post).2.1),
                (postComments env dv 0 pre).2.2
                + (0 + (postComments env dv (pre.length + 1) post).2.2)⟩
         else none) := by
  have hx := postComments_append env dv pre 0 (c :: post)
  simp only [Nat.zero_add] at hx
  unfold postReview
  rw [hx]
  simp only [postComments, processComment, hfind, hnote]
  simp [List.append_assoc]

/-- Witness for C7: a single comment on a file absent from the diff yields
one general note (with the `file:line` prefix) plus the summary note, and
counts as posted. -/
theorem postReview_unmatched_file_general_note_witness :
    (postReview envAllOk "summary" [lostC] dvW).events
      = [PostEvent.noteAttempt (generalNoteBody lostC) true,
         PostEvent.noteAttempt "summary" true]
    ∧ (postReview envAllOk "summary" [lostC] dvW).result = some ⟨1, 0⟩ := by
  have h := postReview_unmatched_file_general_note envAllOk "summary" dvW
    [] lostC [] (by decide) (by decide)
  exact ⟨h.1.trans (by decide), h.2.trans (by decide)⟩

/-- C10: whenever `postReview` returns an outcome, `posted + failed`
equals the number of comments. -/
theorem postReview_outcome_partition (env : PostEnv) (s : String)
    (dv : MergeRequestDiffVersionDetail) (cs : List ReviewComment)
    (out : PostingOutcome)
    (h : (postReview env s cs dv).result = some out) :
    out.posted + out.failed = cs.length := by
  unfold postReview at h
  by_cases hs : env.summaryOk
  · simp only [hs, if_true] at h
    cases h
    simpa using postComments_sum env dv cs 0
  · simp [hs] at h

/-- Witness for C10 at the `[okC, failC]` scenario. -/
theorem postReview_outcome_partition_witness :
    (⟨2, 0⟩ : PostingOutcome).posted + (⟨2, 0⟩ : PostingOutcome).failed
      = [okC, failC].length :=
  postReview_outcome_partition envC2 "summary" dvW [okC, failC] ⟨2, 0⟩
    (by decide)

/- ────────────────────────────────────────────────────────────────────────
   Claim theorems: orchestrator
   ──────────────────────────────────────────────────────────────────────── -/

/-- C4: for any run that fails at the diff fetch, at the clone, or in the
assistant invocation, the handler attempts exactly one best-effort failure
note embedding the error message, returns 500 with the primary error
message (whether or not the notification itself succeeded — its failure is
swallowed), and when the failure happened before the Reviewing stage the
assistant is never invoked. -/
theorem orchestrator_fatal_error_single_note (env : OrchEnv) (e : String)
    (hfail : env.getLatestDiffs = .error e
      ∨ (∃ dv, env.getLatestDiffs = .ok dv ∧ dv.diffs.length ≠ 0
          ∧ env.cloneRepo = .error e)
      ∨ (∃ dv dir, env.getLatestDiffs = .ok dv ∧ dv.diffs.length ≠ 0
          ∧ env.cloneRepo = .ok dir ∧ env.review = .error e)) :
    ((handlerCore env).events.filter (OrchEvent.isFailNoteFor e)).length = 1
    ∧ (handlerCore env).statusCode = 500
    ∧ (handlerCore env).errorMsg = some e
    ∧ ((env.getLatestDiffs = .error e ∨ env.cloneRepo = .error e) →
        ((handlerCore env).events.filter OrchEvent.isAssistant).length = 0) := by
  rcases hfail with h | ⟨dv, hdv, hne, hcl⟩ | ⟨dv, dir, hdv, hne, hcl, hrv⟩
  · simp [handlerCore, h, OrchEvent.isFailNoteFor, OrchEvent.isAssistant]
  · have hne' : (dv.diffs.length == 0) = false := by
      simpa using hne
    refine ⟨?_, ?_, ?_, fun _ => ?_⟩ <;>
      simp [handlerCore, hdv, hne', hcl, OrchEvent.isFailNoteFor,
        OrchEvent.isAssistant]
  · have hne' : (dv.diffs.length == 0) = false := by
      simpa using hne
    refine ⟨?_, ?_, ?_, fun hpre => ?_⟩ <;>
      simp [handlerCore, hdv, hne', hcl, hrv, OrchEvent.isFailNoteFor,
        OrchEvent.isAssistant]
    rcases hpre with hpre | hpre
    · rw [hdv] at hpre; cases hpre
    · rw [hcl] at hpre; cases hpre

/-- Witness for C4: the diff fetch throws `"boom"` and the failure
notification itself also fails; still exactly one notification attempt,
a 500 with the primary error, and no assistant invocation. -/
theorem orchestrator_fatal_error_single_note_witness :
    ((handlerCore envC4).events.filter (OrchEvent.isFailNoteFor "boom")).length = 1
    ∧ (handlerCore envC4).statusCode = 500
    ∧ (handlerCore envC4).errorMsg = some "boom"
    ∧ ((handlerCore envC4).events.filter OrchEvent.isAssistant).length = 0 := by
  have h := orchestrator_fatal_error_single_note envC4 "boom" (Or.inl rfl)
  exact ⟨h.1, h.2.1, h.2.2.1, h.2.2.2 (Or.inl rfl)⟩

/-- C5: when the fetched diff version has zero files and the notes endpoint
is healthy, the handler posts exactly one note (the "no file changes"
informational note), never invokes the assistant, and returns 200. -/
theorem orchestrator_empty_diff_short_circuit (env : OrchEnv)
    (dv : MergeRequestDiffVersionDetail)
    (hdv : env.getLatestDiffs = .ok dv)
    (hempty : dv.diffs.length = 0)
    (hnote : env.emptyNote = none) :
    handlerCore env
      = { events := [.diffFetch true, .note emptyDiffsNoteBody true]
          statusCode := 200
          errorMsg := none }
    ∧ ((handlerCore env).events.filter OrchEvent.isNote).length = 1
    ∧ ((handlerCore env).events.filter OrchEvent.isAssistant).length = 0 := by
  refine ⟨?_, ?_, ?_⟩ <;>
    simp [handlerCore, hdv, hempty, hnote, OrchEvent.isNote,
      OrchEvent.isAssistant]

/-- Witness for C5. -/
theorem orchestrator_empty_diff_short_circuit_witness :
    handlerCore envC5
      = { events := [.diffFetch true, .note emptyDiffsNoteBody true]
          statusCode := 200
          errorMsg := none }
    ∧ ((handlerCore envC5).events.filter OrchEvent.isNote).length = 1
    ∧ ((handlerCore envC5).events.filter OrchEvent.isAssistant).length = 0 :=
  orchestrator_empty_diff_short_circuit envC5 dvEmpty rfl rfl rfl

/- ────────────────────────────────────────────────────────────────────────
   Helper lemmas about the response parser
   ──────────────────────────────────────────────────────────────────────── -/

/-- Member access on a non-nullish receiver never throws. -/
theorem access_notNullish (c : Js) (hc : jsNotNullish c = true)
    (k : String) : c.access k = some (c.accessD k) := by
  cases c <;> simp_all [jsNotNullish, Js.access, Js.accessD]

/-- For a non-nullish candidate, the filter predicate evaluates without
throwing, accepting exactly the candidates that `candidateToComment`
keeps, and on accepted candidates the map body produces exactly the
retained comment. -/
theorem keep_bridge (c : Js) (hc : jsNotNullish c = true) :
    (keepCandidate c = some true ∧ ∃ rc, candidateToComment c = some rc
        ∧ jsToComment c = some rc)
    ∨ (keepCandidate c = some false ∧ candidateToComment c = none) := by
  have hf := access_notNullish c hc "file"
  have hl := access_notNullish c hc "line"
  have hb := access_notNullish c hc "body"
  have hs := access_notNullish c hc "severity"
  unfold keepCandidate candidateToComment jsToComment
  rw [hf, hl, hb, hs]
  cases c.accessD "file" <;> cases c.accessD "line" <;>
    cases c.accessD "body" <;> simp [Js.typeof]

/-- Bridge: when no candidate is nullish, the filter-then-map pipeline of
the source equals a single `filterMap` by the spec-level
`candidateToComment`. -/
theorem filter_map_bridge (cands : List Js)
    (h : cands.all jsNotNullish = true) :
    ∃ kept, jsFilterComments cands = some kept
      ∧ mapOrThrow jsToComment kept
          = some (cands.filterMap candidateToComment) := by
  induction cands with
  | nil => exact ⟨[], rfl, rfl⟩
  | cons c cs ih =>
    simp only [List.all_cons, Bool.and_eq_true] at h
    obtain ⟨kept, hkept, hmap⟩ := ih h.2
    rcases keep_bridge c h.1 with ⟨hkc, rc, hcc, hjc⟩ | ⟨hkc, hcc⟩
    · refine ⟨c :: kept, ?_, ?_⟩
      · simp [jsFilterComments, hkc, hkept]
      · simp [mapOrThrow, hjc, hmap, List.filterMap_cons, hcc]
    · refine ⟨kept, ?_, ?_⟩
      · simp [jsFilterComments, hkc, hkept]
      · simp [hmap, List.filterMap_cons, hcc]

/-- `normSeverity` only ever produces the three recognized severities. -/
theorem normSeverity_cases (sv : Js) :
    normSeverity sv = "info" ∨ normSeverity sv = "warning"
      ∨ normSeverity sv = "critical" := by
  unfold normSeverity
  split <;> simp

/-- Every comment produced by `candidateToComment` carries a normalized
severity. -/
theorem candidateToComment_severity (c : Js) (rc : ReviewComment)
    (h : candidateToComment c = some rc) :
    rc.severity = "info" ∨ rc.severity = "warning"
      ∨ rc.severity = "critical" := by
  unfold candidateToComment at h
  split at h
  · cases h
    exact normSeverity_cases _
  · cases h

/- ────────────────────────────────────────────────────────────────────────
   Claim theorems: response parser (C8, C3)
   ──────────────────────────────────────────────────────────────────────── -/

/-- C8 (amended): when decoding succeeds with a string summary and no
candidate in the comments array is nullish, a candidate is kept exactly
when it has a string file, a numeric line and a string body
(`candidateToComment`), and every kept comment's severity is one of
info/warning/critical. -/
theorem parse_kept_comments (jp : String → Option Js) (content : String)
    (v : Js) (s : String) (cv : Js)
    (hjp : jp (cleanContent content) = some v)
    (hsum : v.access "summary" = some (.str s))
    (hcv : v.access "comments" = some cv)
    (hnn : (jsArray cv).all jsNotNullish = true) :
    parseReviewResponse jp content
      = ⟨s, (jsArray cv).filterMap candidateToComment⟩
    ∧ ∀ rc ∈ (jsArray cv).filterMap candidateToComment,
        rc.severity = "info" ∨ rc.severity = "warning"
          ∨ rc.severity = "critical" := by
  obtain ⟨kept, hkept, hmap⟩ := filter_map_bridge (jsArray cv) hnn
  constructor
  · have hpa : parseAttempt jp (cleanContent content)
        = some ⟨s, (jsArray cv).filterMap candidateToComment⟩ := by
      unfold parseAttempt
      rw [hjp]
      dsimp only
      rw [hsum]
      dsimp only
      rw [hcv]
      dsimp only
      rw [hkept]
      dsimp only
      rw [hmap]
    unfold parseReviewResponse
    rw [hpa]
  · intro rc hrc
    rw [List.mem_filterMap] at hrc
    obtain ⟨c, _, hc⟩ := hrc
    exact candidateToComment_severity c rc hc

/-- Witness for C8: the spec's "not-a-number" example — the malformed
comment is dropped, the summary `"x"` is kept. -/
theorem parse_kept_comments_witness :
    parseReviewResponse (constDecode c8wValue) s8w = ⟨"x", []⟩ := by
  have h := parse_kept_comments (constDecode c8wValue) s8w c8wValue "x"
    (.arr [c8wCand]) rfl rfl rfl (by decide)
  exact h.1.trans (by decide)

/-- Counterexample for C8 as stated: for the input `s8bad`, structured
decoding succeeds and the first candidate has a string file, a numeric
line and a string body, yet it is not kept — the JSON `null` after it
makes the filter predicate throw, so the whole parse degrades to the
raw-text fallback with zero comments. -/
theorem parse_null_candidate_counterexample :
    constDecode c8badValue (cleanContent s8bad) = some c8badValue
    ∧ candidateToComment c8good = some ⟨"a.ts", 1, "b", "info"⟩
    ∧ (parseReviewResponse (constDecode c8badValue) s8bad).comments = [] := by
  refine ⟨rfl, by decide, by decide⟩

/-- C3 (amended): whenever structured decoding fails, or the decoded value
lacks a string summary, the parser returns the original raw input text
(fences and surrounding whitespace included) as the summary, with zero
comments; it never fails. -/
theorem parse_fallback_raw_text (jp : String → Option Js) (content : String)
    (h : jp (cleanContent content) = none
      ∨ ∃ v, jp (cleanContent content) = some v
          ∧ hasStringSummary v = false) :
    parseReviewResponse jp content
      = { summary := content, comments := [] } := by
  have hpa : parseAttempt jp (cleanContent content) = none := by
    unfold parseAttempt
    rcases h with h | ⟨v, hv, hs⟩
    · rw [h]
    · rw [hv]
      dsimp only
      unfold hasStringSummary at hs
      rcases hsv : v.access "summary" with _ | sv
      · rfl
      · dsimp only
        cases sv <;> simp_all
  unfold parseReviewResponse
  rw [hpa]

/-- Witness for C3: parsing the literal prose `not json at all` (on which
`JSON.parse` throws) yields that text as summary and zero comments. -/
theorem parse_fallback_raw_text_witness :
    parseReviewResponse failDecode "not json at all"
      = { summary := "not json at all", comments := [] } :=
  parse_fallback_raw_text failDecode "not json at all" (Or.inl rfl)

/-- Counterexample for C3 as stated: for a fenced undecodable input the
unfenced text is `not json at all`, but the fallback summary is the raw
fenced input, not the unfenced text. -/
theorem parse_fallback_keeps_fences_counterexample :
    cleanContent (wrapFence "json" "not json at all") = "not json at all"
    ∧ (parseReviewResponse failDecode
        (wrapFence "json" "not json at all")).summary
      ≠ "not json at all" := by
  constructor <;> decide

/- ────────────────────────────────────────────────────────────────────────
   Helper lemmas about fence stripping (C9)
   ──────────────────────────────────────────────────────────────────────── -/

/-- Dropping trailing whitespace leaves a list ending in a backtick
unchanged. -/
theorem trimEnd_btick (m : List Char) :
    trimEnd (m ++ [btick]) = m ++ [btick] := by
  unfold trimEnd
  rw [List.reverse_append]
  simp only [List.reverse_cons, List.reverse_nil, List.nil_append,
    List.singleton_append]
  rw [List.dropWhile_cons]
  simp [show isJsSpace btick = false by decide]

/-- JS trim leaves a list that starts and ends with a backtick
unchanged. -/
theorem jsTrimData_fence (m : List Char) :
    jsTrimData (btick :: (m ++ [btick])) = btick :: (m ++ [btick]) := by
  unfold jsTrimData
  rw [List.dropWhile_cons]
  simp only [show isJsSpace btick = false by decide, Bool.false_eq_true,
    if_false]
  have h := trimEnd_btick (btick :: m)
  simpa using h

/-- Closing-fence stripping recovers the wrapped text. -/
theorem stripFenceClose_wrapped (l : List Char) :
    stripFenceClose ⟨l ++ ['\n', btick, btick, btick]⟩ = ⟨l⟩ := by
  have hrev : (l ++ ['\n', btick, btick, btick]).reverse
      = btick :: btick :: btick :: '\n' :: l.reverse := by
    simp
  have hends : strEnds "\n```" ⟨l ++ ['\n', btick, btick, btick]⟩ = true := by
    unfold strEnds
    show chStarts "\n```".data.reverse (l ++ ['\n', btick, btick, btick]).reverse
      = true
    rw [hrev, show "\n```".data.reverse = [btick, btick, btick, '\n'] from rfl]
    simp [chStarts]
  unfold stripFenceClose
  rw [hends]
  simp only [if_true]
  unfold strDropEnd
  have hlen : (l ++ ['\n', btick, btick, btick]).length - 4 = l.length := by
    simp [List.length_append]
  show (⟨((⟨l ++ ['\n', btick, btick, btick]⟩ : String).data.take
    ((⟨l ++ ['\n', btick, btick, btick]⟩ : String).data.length - 4))⟩ : String)
      = ⟨l⟩
  rw [show (⟨l ++ ['\n', btick, btick, btick]⟩ : String).data
    = l ++ ['\n', btick, btick, btick] from rfl]
  rw [hlen, List.take_left]

/-- The trim/strip front half of the parser undoes a `json`-tagged or
untagged fence wrapping exactly. -/
theorem cleanContent_wrapFence (tag T : String)
    (htag : tag = "json" ∨ tag = "") :
    cleanContent (wrapFence tag T) = T := by
  obtain ⟨l⟩ := T
  rcases htag with h | h <;> subst h
  · have hdata : (wrapFence "json" ⟨l⟩).data
        = btick :: ((btick :: btick :: 'j' :: 's' :: 'o' :: 'n' :: '\n'
            :: (l ++ ['\n', btick, btick])) ++ [btick]) := by
      show btick :: btick :: btick :: 'j' :: 's' :: 'o' :: 'n' :: '\n'
          :: (l ++ '\n' :: btick :: btick :: btick :: []) = _
      simp
    have htrim : jsTrim (wrapFence "json" ⟨l⟩) = wrapFence "json" ⟨l⟩ := by
      unfold jsTrim
      rw [hdata, jsTrimData_fence, ← hdata]
    have hstart : strStarts "```" (wrapFence "json" ⟨l⟩) = true := rfl
    have hopen : stripFenceOpen (wrapFence "json" ⟨l⟩)
        = ⟨l ++ ['\n', btick, btick, btick]⟩ := rfl
    unfold cleanContent
    dsimp only
    rw [htrim]
    simp only [hstart, if_true]
    rw [hopen, stripFenceClose_wrapped]
  · have hdata : (wrapFence "" ⟨l⟩).data
        = btick :: ((btick :: btick :: '\n'
            :: (l ++ ['\n', btick, btick])) ++ [btick]) := by
      show btick :: btick :: btick :: '\n'
          :: (l ++ '\n' :: btick :: btick :: btick :: []) = _
      simp
    have htrim : jsTrim (wrapFence "" ⟨l⟩) = wrapFence "" ⟨l⟩ := by
      unfold jsTrim
      rw [hdata, jsTrimData_fence, ← hdata]
    have hstart : strStarts "```" (wrapFence "" ⟨l⟩) = true := rfl
    have hopen : stripFenceOpen (wrapFence "" ⟨l⟩)
        = ⟨l ++ ['\n', btick, btick, btick]⟩ := rfl
    unfold cleanContent
    dsimp only
    rw [htrim]
    simp only [hstart, if_true]
    rw [hopen, stripFenceClose_wrapped]

/- ────────────────────────────────────────────────────────────────────────
   Claim theorems: fence roundtrip (C9)
   ──────────────────────────────────────────────────────────────────────── -/

/-- C9 (amended): for a trimmed text that does not itself start with a
fence, wrapping it in a fenced block tagged `json` (or untagged) parses to
the same result as the unwrapped text, provided the structured decode of
the text succeeds (so the raw-text fallback — which keeps the fences — is
not taken). -/
theorem fence_roundtrip_amended (jp : String → Option Js) (T tag : String)
    (htag : tag = "json" ∨ tag = "")
    (htrim : jsTrim T = T)
    (hfence : strStarts "```" T = false)
    (hok : (parseAttempt jp T).isSome = true) :
    parseReviewResponse jp (wrapFence tag T)
      = parseReviewResponse jp T := by
  have hw := cleanContent_wrapFence tag T htag
  have hu : cleanContent T = T := by
    unfold cleanContent
    dsimp only
    rw [htrim]
    simp [hfence]
  obtain ⟨r, hr⟩ := Option.isSome_iff_exists.mp hok
  unfold parseReviewResponse
  rw [hw, hu, hr]

/-- Witness for C9 (amended): a well-formed JSON response wrapped in a
`json`-tagged fence parses identically to the bare response. -/
theorem fence_roundtrip_amended_witness :
    parseReviewResponse (constDecode v9) (wrapFence "json" t9)
      = parseReviewResponse (constDecode v9) t9 :=
  fence_roundtrip_amended (constDecode v9) t9 "json" (Or.inl rfl)
    (by decide) (by decide) (by decide)

/-- Counterexample for C9 as stated: wrapping the undecodable text
`not json at all` in a `json`-tagged fence changes the parse result — the
fallback summary keeps the fences. -/
theorem fence_roundtrip_counterexample :
    parseReviewResponse failDecode (wrapFence "json" "not json at all")
      ≠ parseReviewResponse failDecode "not json at all" := by
  decide
